import Mathlib

/-!
Verification development for the react-native-audio-lab voice-synthesis and
mixing engine (src/native/audio). C++ floating-point values are modelled as
exact rationals (ℚ) for the stateful/looping code, and as reals (ℝ) for the
isolated transcendental pitch-ratio computation. Machine ints are modelled
as ℤ. std::map is modelled as an association list, std::vector and
juce::AudioBuffer channels as Lean lists.
-/

-- ══════════════════════════════════════════════════════════════════════
-- Numeric helpers mirroring JUCE / C++ primitives
-- ══════════════════════════════════════════════════════════════════════

/-- Models juce::jlimit on floats/doubles (value below lower → lower,
value above upper → upper, otherwise unchanged). -/
def jlimit (lo hi v : ℚ) : ℚ :=
  if v < lo then lo else if hi < v then hi else v

/-- Models juce::jlimit on ints. -/
def jlimitInt (lo hi v : ℤ) : ℤ :=
  if v < lo then lo else if hi < v then hi else v

/-- Models a C++ `static_cast<int>` on a double: truncation toward zero. -/
def cppTrunc (q : ℚ) : ℤ :=
  if q < 0 then ⌈q⌉ else ⌊q⌋

/-- Models a raw C array read `p[i]` on a float pointer. Out-of-range
indices return 0 here; the render embedding separately records every index
dereferenced so that bounds theorems police the accesses. -/
def listRead (l : List ℚ) (i : ℤ) : ℚ :=
  if 0 ≤ i then l.getD i.toNat 0 else 0

/-- Models an in-place write `p[i] = x` into a float array. -/
def listWrite (l : List ℚ) (i : ℤ) (x : ℚ) : List ℚ :=
  if 0 ≤ i then l.set i.toNat x else l

/-- Models an in-place accumulate `p[i] += x` into a float array. -/
def listAddAt (l : List ℚ) (i : ℕ) (x : ℚ) : List ℚ :=
  l.set i (l.getD i 0 + x)

-- ══════════════════════════════════════════════════════════════════════
-- Envelope generator (ADSR)
-- ══════════════════════════════════════════════════════════════════════

/-- Phase of the ADSR envelope state machine (spec §4.2). -/
inductive AdsrPhase
  | idle
  | attack
  | decay
  | sustain
  | release
  deriving DecidableEq

/-- ADSR parameters: attack/decay/release in seconds, sustain as a level. -/
structure AdsrParams where
  attack : ℚ
  decay : ℚ
  sustain : ℚ
  release : ℚ
  deriving DecidableEq

/-- Modelled from the spec: the per-voice envelope generator (spec §4.2).
The concrete envelope class used by the voices (juce::ADSR) is an external
library component not present in src/; the spec describes a linear
per-sample ADSR state machine, embedded here. -/
structure AdsrState where
  phase : AdsrPhase
  level : ℚ
  params : AdsrParams
  sampleRate : ℚ
  deriving DecidableEq

/-- Modelled from the spec: Idle means the envelope (and its voice) is
finished; every other phase is active. -/
def AdsrState.isActive (s : AdsrState) : Bool :=
  s.phase ≠ AdsrPhase.idle

def AdsrState.setSampleRate (s : AdsrState) (sr : ℚ) : AdsrState :=
  { s with sampleRate := sr }

/-- Modelled from the spec: NoteOn transitions to Attack, level continuing
from its current value (spec §4.2). -/
def AdsrState.noteOn (s : AdsrState) : AdsrState :=
  { s with phase := AdsrPhase.attack }

/-- Modelled from the spec: NoteOff at any state transitions to Release. -/
def AdsrState.noteOff (s : AdsrState) : AdsrState :=
  { s with phase := AdsrPhase.release }

/-- Modelled from the spec: a hard stop forces immediate Idle. -/
def AdsrState.reset (s : AdsrState) : AdsrState :=
  { s with phase := AdsrPhase.idle, level := 0 }

/-- Modelled from the spec: per-sample advance returning the new level
(spec §4.2): linear attack toward 1, linear decay toward the sustain
level, sustain hold, linear release toward 0 reaching Idle. -/
def AdsrState.getNextSample (s : AdsrState) : ℚ × AdsrState :=
  match s.phase with
  | AdsrPhase.idle => (0, s)
  | AdsrPhase.attack =>
    let lv := s.level + 1 / (s.params.attack * s.sampleRate)
    if 1 ≤ lv then (1, { s with level := 1, phase := AdsrPhase.decay })
    else (lv, { s with level := lv })
  | AdsrPhase.decay =>
    let lv := s.level - (1 - s.params.sustain) / (s.params.decay * s.sampleRate)
    if lv ≤ s.params.sustain then
      (s.params.sustain, { s with level := s.params.sustain, phase := AdsrPhase.sustain })
    else (lv, { s with level := lv })
  | AdsrPhase.sustain => (s.params.sustain, s)
  | AdsrPhase.release =>
    let lv := s.level - 1 / (s.params.release * s.sampleRate)
    if lv ≤ 0 then (0, { s with level := 0, phase := AdsrPhase.idle })
    else (lv, { s with level := lv })

example : (AdsrState.mk AdsrPhase.idle 0 ⟨1, 1, 1, 1⟩ 44100).isActive = false := by decide

-- ══════════════════════════════════════════════════════════════════════
-- Effect processor states (SimpleEffects.h)
-- ══════════════════════════════════════════════════════════════════════

/-- Models std::vector::resize(n, 0.0f): shrink, or grow padding with 0. -/
def vecResize (v : List ℚ) (n : ℕ) : List ℚ :=
  if n ≤ v.length then v.take n else v ++ List.replicate (n - v.length) 0

/-- Parameters of SimpleReverbProcessor (juce::Reverb::Parameters). -/
structure ReverbParams where
  roomSize : ℚ
  damping : ℚ
  wetLevel : ℚ
  dryLevel : ℚ
  width : ℚ
  deriving DecidableEq

/-- State of SimpleReverbProcessor. The wrapped juce::Reverb diffuse-field
DSP is an external library component; its parameter block and sample rate
are the state the repository's code reads and writes. -/
structure ReverbState where
  params : ReverbParams
  sampleRate : ℚ
  deriving DecidableEq

def ReverbState.setRoomSize (s : ReverbState) (size : ℚ) : ReverbState :=
  { s with params := { s.params with roomSize := jlimit 0 1 size } }

def ReverbState.setDamping (s : ReverbState) (damp : ℚ) : ReverbState :=
  { s with params := { s.params with damping := jlimit 0 1 damp } }

def ReverbState.setWetLevel (s : ReverbState) (wet : ℚ) : ReverbState :=
  { s with params := { s.params with wetLevel := jlimit 0 1 wet } }

def ReverbState.setDryLevel (s : ReverbState) (dry : ℚ) : ReverbState :=
  { s with params := { s.params with dryLevel := jlimit 0 1 dry } }

def ReverbState.setWidth (s : ReverbState) (width : ℚ) : ReverbState :=
  { s with params := { s.params with width := jlimit 0 1 width } }

/-- State of SimpleDelayProcessor: per-channel circular buffers, write
position, delay time (ms), feedback, wet level, sample rate. -/
structure DelayState where
  delayBufferL : List ℚ
  delayBufferR : List ℚ
  writePosition : ℤ
  delayTimeMs : ℚ
  feedback : ℚ
  wetLevel : ℚ
  sampleRate : ℚ
  deriving DecidableEq

/-- SimpleDelayProcessor::prepareToPlay: store the sample rate, size both
delay buffers for a 2 second maximum delay, reset the write position. -/
def DelayState.prepareToPlay (st : DelayState) (sampleRate : ℚ) : DelayState :=
  let maxDelaySamples := cppTrunc (sampleRate * 2)
  { st with sampleRate := sampleRate,
            delayBufferL := vecResize st.delayBufferL maxDelaySamples.toNat,
            delayBufferR := vecResize st.delayBufferR maxDelaySamples.toNat,
            writePosition := 0 }

def DelayState.setDelayTime (st : DelayState) (ms : ℚ) : DelayState :=
  { st with delayTimeMs := jlimit 1 2000 ms }

def DelayState.setFeedback (st : DelayState) (fb : ℚ) : DelayState :=
  { st with feedback := jlimit 0 (19/20) fb }

def DelayState.setWetLevel (st : DelayState) (wet : ℚ) : DelayState :=
  { st with wetLevel := jlimit 0 1 wet }

/-- The delay length in samples computed at the top of
SimpleDelayProcessor::processBlock, clamped into [1, bufferSize-1]. -/
def delaySamplesFor (st : DelayState) (bufferSize : ℤ) : ℤ :=
  jlimitInt 1 (bufferSize - 1) (cppTrunc ((st.delayTimeMs / 1000) * st.sampleRate))

/-- The circular-buffer read position `writePosition - delaySamples`,
wrapped by bufferSize when negative. -/
def delayReadPos (writePosition delaySamples bufferSize : ℤ) : ℤ :=
  let readPos0 := writePosition - delaySamples
  if readPos0 < 0 then readPos0 + bufferSize else readPos0

/-- One iteration of the SimpleDelayProcessor::processBlock sample loop:
read the delayed sample, form the dry/wet mix, write dry + feedback×delayed
into the circular buffer, advance the write position. `stereo` records
whether a right channel pointer exists. -/
def delayStep (st : DelayState) (bufferSize delaySamples : ℤ) (stereo : Bool)
    (l r : ℚ) : ℚ × ℚ × DelayState :=
  let readPos := delayReadPos st.writePosition delaySamples bufferSize
  let delayedL := listRead st.delayBufferL readPos
  let delayedR := if stereo then listRead st.delayBufferR readPos else delayedL
  let outputL := l * (1 - st.wetLevel) + delayedL * st.wetLevel
  let outputR := if stereo then r * (1 - st.wetLevel) + delayedR * st.wetLevel else outputL
  let bufL := listWrite st.delayBufferL st.writePosition (l + delayedL * st.feedback)
  let bufR := if stereo then listWrite st.delayBufferR st.writePosition (r + delayedR * st.feedback)
              else listWrite st.delayBufferR st.writePosition (listRead bufL st.writePosition)
  let wp := (st.writePosition + 1) % bufferSize
  (outputL, outputR,
   { st with delayBufferL := bufL, delayBufferR := bufR, writePosition := wp })

/-- The sample loop of SimpleDelayProcessor::processBlock over indices
i, i+1, ... on the left/right channel arrays. -/
def delayLoop (bufferSize delaySamples : ℤ) (stereo : Bool) :
    ℕ → ℕ → DelayState → List ℚ → List ℚ → DelayState × List ℚ × List ℚ
  | 0, _, st, ls, rs => (st, ls, rs)
  | n + 1, i, st, ls, rs =>
    let l := ls.getD i 0
    let r := rs.getD i 0
    let (outL, outR, st1) := delayStep st bufferSize delaySamples stereo l r
    let ls1 := ls.set i outL
    let rs1 := if stereo then rs.set i outR else rs
    delayLoop bufferSize delaySamples stereo n (i + 1) st1 ls1 rs1

/-- SimpleDelayProcessor::processBlock on a buffer given as a list of
channel arrays (only channels 0 and 1 are touched, as in the source). -/
def SimpleDelayProcessor.processBlock (st : DelayState) (buffer : List (List ℚ)) :
    DelayState × List (List ℚ) :=
  match buffer with
  | [] => (st, [])
  | lch :: rest =>
    let bufferSize : ℤ := st.delayBufferL.length
    if bufferSize = 0 then (st, lch :: rest)
    else
      let numSamples := lch.length
      let delaySamples := delaySamplesFor st bufferSize
      match rest with
      | [] =>
        let (st1, ls, _) := delayLoop bufferSize delaySamples false numSamples 0 st lch []
        (st1, [ls])
      | rch :: more =>
        let (st1, ls, rs) := delayLoop bufferSize delaySamples true numSamples 0 st lch rch
        (st1, ls :: rs :: more)

/-- State of SimpleFilterProcessor (the juce::dsp::IIR filter memory and
coefficient math live in the external DSP library; the repository's code
owns cutoff, resonance, type and sample rate). -/
inductive FilterType
  | lowPass
  | highPass
  | bandPass
  deriving DecidableEq

structure FilterState where
  cutoffFreq : ℚ
  resonance : ℚ
  filterType : FilterType
  sampleRate : ℚ
  deriving DecidableEq

def FilterState.setCutoffFrequency (s : FilterState) (freq : ℚ) : FilterState :=
  { s with cutoffFreq := jlimit 20 20000 freq }

def FilterState.setResonance (s : FilterState) (res : ℚ) : FilterState :=
  { s with resonance := jlimit (1/10) 10 res }

def FilterState.setFilterType (s : FilterState) (t : FilterType) : FilterState :=
  { s with filterType := t }

-- ══════════════════════════════════════════════════════════════════════
-- Instrument effects chain (Instrument.h / Instrument.cpp)
-- ══════════════════════════════════════════════════════════════════════

/-- Instrument::EffectType (Instrument.h). -/
inductive EffectType
  | Reverb
  | Delay
  | Chorus
  | Distortion
  | Filter
  | Compressor
  deriving DecidableEq

/-- The concrete processor state behind the EffectProcessor interface:
one variant per effect class the factory can construct. -/
inductive ProcState
  | reverb (s : ReverbState)
  | delay (s : DelayState)
  | filter (s : FilterState)
  deriving DecidableEq

/-- EffectProcessor::prepareToPlay dispatched over the concrete classes
(ReverbEffectWrapper / DelayEffectWrapper / FilterEffectWrapper). -/
def ProcState.prepareToPlay (p : ProcState) (sampleRate : ℚ) : ProcState :=
  match p with
  | ProcState.reverb s => ProcState.reverb { s with sampleRate := sampleRate }
  | ProcState.delay s => ProcState.delay (s.prepareToPlay sampleRate)
  | ProcState.filter s => ProcState.filter { s with sampleRate := sampleRate }

/-- Instrument::Effect: id, type, enabled flag (default true), processor. -/
structure Effect where
  id : ℤ
  type : EffectType
  enabled : Bool := true
  processor : Option ProcState
  deriving DecidableEq

/-- BaseOscillatorVoice::Waveform. -/
inductive Waveform
  | Sine
  | Saw
  | Square
  | Triangle
  deriving DecidableEq

/-- Oscillator instrument Config (Instrument.h) with its defaults. -/
structure Config where
  polyphony : ℤ := 16
  waveform : Waveform := Waveform.Sine
  adsrParams : AdsrParams := ⟨1/100, 1/10, 4/5, 3/10⟩
  volume : ℚ := 7/10
  pan : ℚ := 1/2
  name : String := "Untitled Instrument"
  deriving DecidableEq

/-- The Instrument state touched by the verified operations: its config,
ordered effects chain, monotonically increased per-instrument effect id
counter (initialised to 1), and prepare-time sample rate / block size. -/
structure Instrument where
  config : Config
  effectsChain : List Effect := []
  currentSampleRate : ℚ := 44100
  currentBlockSize : ℤ := 512
  nextEffectId : ℤ := 1
  deriving DecidableEq

/-- Instrument::createEffect: the factory returns a default-constructed
processor for Reverb/Delay/Filter and null for the unimplemented types. -/
def Instrument.createEffect : EffectType → Option ProcState
  | EffectType.Reverb =>
    some (ProcState.reverb ⟨⟨1/2, 1/2, 33/100, 2/5, 1⟩, 44100⟩)
  | EffectType.Delay =>
    some (ProcState.delay ⟨[], [], 0, 500, 2/5, 1/2, 44100⟩)
  | EffectType.Filter =>
    some (ProcState.filter ⟨1000, 7/10, FilterType.lowPass, 44100⟩)
  | _ => none

/-- Instrument::addEffect: construct the processor (failure → -1), take the
next id and increment the counter, prepare the processor when already
playing, append the new enabled effect at the end of the chain. -/
def Instrument.addEffect (inst : Instrument) (type : EffectType) : ℤ × Instrument :=
  match Instrument.createEffect type with
  | none => (-1, inst)
  | some proc =>
    let effectId := inst.nextEffectId
    let proc1 := if 0 < inst.currentSampleRate then proc.prepareToPlay inst.currentSampleRate else proc
    (effectId,
     { inst with
       nextEffectId := effectId + 1,
       effectsChain := inst.effectsChain ++ [{ id := effectId, type := type, processor := some proc1 }] })

/-- Instrument::removeEffect: erase every chain entry with the given id. -/
def Instrument.removeEffect (inst : Instrument) (effectId : ℤ) : Instrument :=
  { inst with effectsChain := inst.effectsChain.filter (fun e => e.id ≠ effectId) }

/-- Instrument::clearEffects. -/
def Instrument.clearEffects (inst : Instrument) : Instrument :=
  { inst with effectsChain := [] }

/-- The loop body of Instrument::setEffectEnabled: set the flag on the
first chain entry with the given id, then break. -/
def setEnabledInChain (chain : List Effect) (effectId : ℤ) (enabled : Bool) : List Effect :=
  match chain with
  | [] => []
  | e :: rest =>
    if e.id = effectId then { e with enabled := enabled } :: rest
    else e :: setEnabledInChain rest effectId enabled

/-- Instrument::setEffectEnabled. -/
def Instrument.setEffectEnabled (inst : Instrument) (effectId : ℤ) (enabled : Bool) : Instrument :=
  { inst with effectsChain := setEnabledInChain inst.effectsChain effectId enabled }

/-- ASCII lower-casing of one character (A..Z mapped down by 32). -/
def charToLower (c : Char) : Char :=
  if 65 ≤ c.toNat ∧ c.toNat ≤ 90 then Char.ofNat (c.toNat + 32) else c

/-- ASCII lower-casing of a string, characterwise. -/
def strToLower (s : String) : String :=
  ⟨s.data.map charToLower⟩

/-- Models juce::String::equalsIgnoreCase: equality after case folding
(the parameter names involved are plain ASCII). -/
def eqIgnoreCase (a b : String) : Bool :=
  strToLower a == strToLower b

/-- The per-type parameter dispatch inside Instrument::setEffectParameter:
each known name (matched case-insensitively) routes to the corresponding
clamped setter; every other name falls through leaving the state unchanged.
The type/processor mismatch arm mirrors the failing dynamic_cast. -/
def applyEffectParameter (type : EffectType) (proc : ProcState)
    (paramName : String) (value : ℚ) : ProcState :=
  match type, proc with
  | EffectType.Reverb, ProcState.reverb r =>
    if eqIgnoreCase paramName "roomSize" then ProcState.reverb (r.setRoomSize value)
    else if eqIgnoreCase paramName "damping" then ProcState.reverb (r.setDamping value)
    else if eqIgnoreCase paramName "wetLevel" then ProcState.reverb (r.setWetLevel value)
    else if eqIgnoreCase paramName "dryLevel" then ProcState.reverb (r.setDryLevel value)
    else if eqIgnoreCase paramName "width" then ProcState.reverb (r.setWidth value)
    else ProcState.reverb r
  | EffectType.Delay, ProcState.delay d =>
    if eqIgnoreCase paramName "delayTime" then ProcState.delay (d.setDelayTime value)
    else if eqIgnoreCase paramName "feedback" then ProcState.delay (d.setFeedback value)
    else if eqIgnoreCase paramName "wetLevel" then ProcState.delay (d.setWetLevel value)
    else ProcState.delay d
  | EffectType.Filter, ProcState.filter f =>
    if eqIgnoreCase paramName "cutoff" || eqIgnoreCase paramName "frequency" then
      ProcState.filter (f.setCutoffFrequency value)
    else if eqIgnoreCase paramName "resonance" || eqIgnoreCase paramName "q" then
      ProcState.filter (f.setResonance value)
    else if eqIgnoreCase paramName "type" then
      let typeInt := cppTrunc value
      if typeInt = 0 then ProcState.filter (f.setFilterType FilterType.lowPass)
      else if typeInt = 1 then ProcState.filter (f.setFilterType FilterType.highPass)
      else if typeInt = 2 then ProcState.filter (f.setFilterType FilterType.bandPass)
      else ProcState.filter f
    else ProcState.filter f
  | _, p => p

/-- The loop of Instrument::setEffectParameter: find the first chain entry
with the given id and a processor, apply the parameter dispatch to it,
then break; entries without the id (or without a processor) are skipped. -/
def setParameterInChain (chain : List Effect) (effectId : ℤ)
    (paramName : String) (value : ℚ) : List Effect :=
  match chain with
  | [] => []
  | e :: rest =>
    if e.id = effectId then
      match e.processor with
      | some p => { e with processor := some (applyEffectParameter e.type p paramName value) } :: rest
      | none => e :: rest
    else e :: setParameterInChain rest effectId paramName value

/-- Instrument::setEffectParameter: returns only the updated instrument,
with no error channel of any kind. -/
def Instrument.setEffectParameter (inst : Instrument) (effectId : ℤ)
    (paramName : String) (value : ℚ) : Instrument :=
  { inst with effectsChain := setParameterInChain inst.effectsChain effectId paramName value }

/-- The set of parameter names (lower-cased) that
Instrument::setEffectParameter knows for each effect type. -/
def knownParams : EffectType → List String
  | EffectType.Reverb => ["roomsize", "damping", "wetlevel", "drylevel", "width"]
  | EffectType.Delay => ["delaytime", "feedback", "wetlevel"]
  | EffectType.Filter => ["cutoff", "frequency", "resonance", "q", "type"]
  | _ => []

/-- Instrument::processEffectsChain: run the buffer through each enabled
effect that has a processor, in chain order, mutating that effect's
processor state in place. The per-processor processBlock virtual call is
the parameter `pb` (the vtable dispatch of EffectProcessor::processBlock). -/
def processEffectsChain (pb : ProcState → List (List ℚ) → ProcState × List (List ℚ)) :
    List Effect → List (List ℚ) → List Effect × List (List ℚ)
  | [], buffer => ([], buffer)
  | e :: rest, buffer =>
    match e.enabled, e.processor with
    | true, some p =>
      let r1 := pb p buffer
      let r2 := processEffectsChain pb rest r1.2
      ({ e with processor := some r1.1 } :: r2.1, r2.2)
    | _, _ =>
      let r := processEffectsChain pb rest buffer
      (e :: r.1, r.2)

/-- Instrument::prepareToPlay: record sample rate and block size, prepare
every effect in the chain (voice pool preparation is the synthesiser's). -/
def Instrument.prepareToPlay (inst : Instrument) (sampleRate : ℚ) (samplesPerBlock : ℤ) : Instrument :=
  { inst with
    currentSampleRate := sampleRate,
    currentBlockSize := samplesPerBlock,
    effectsChain := inst.effectsChain.map (fun e =>
      { e with processor := e.processor.map (fun p => p.prepareToPlay sampleRate) }) }

-- ══════════════════════════════════════════════════════════════════════
-- Multi-sampler sound bank (MultisamplerSound.cpp / MultisamplerInstrument.cpp)
-- ══════════════════════════════════════════════════════════════════════

/-- juce::AudioBuffer::getNumSamples on a buffer given as channel lists. -/
def bufNumSamples (audioData : List (List ℚ)) : ℤ :=
  ((audioData.headD []).length : ℤ)

/-- MultiSamplerConfig::SampleConfig with its defaults. -/
structure SampleConfig where
  name : String := ""
  rootNote : ℤ := 60
  minNote : ℤ := 0
  maxNote : ℤ := 127
  deriving DecidableEq

/-- MultiSamplerConfig::Config with its defaults. -/
structure MultiSamplerConfig where
  polyphony : ℤ := 32
  adsrParams : AdsrParams := ⟨1/1000, 1/100, 1, 1/10⟩
  volume : ℚ := 7/10
  pan : ℚ := 1/2
  name : String := "Untitled Sampler"
  deriving DecidableEq

/-- MultiSamplerSound: a copied PCM buffer with its note mapping. The
constructor clamps the notes to 0..127, copies the audio data, and sets
sourceSampleRate to the literal default 44100.0 (MultisamplerSound.cpp has
no other write to this field and no setter for it). -/
structure MultiSamplerSound where
  name : String
  data : List (List ℚ)
  rootNote : ℤ
  minNote : ℤ
  maxNote : ℤ
  length : ℤ
  numChannels : ℤ
  sourceSampleRate : ℚ
  deriving DecidableEq

/-- The MultiSamplerSound constructor. -/
def MultiSamplerSound.create (name : String) (audioData : List (List ℚ))
    (rootNote minNote maxNote : ℤ) : MultiSamplerSound :=
  { name := name
    data := audioData
    rootNote := jlimitInt 0 127 rootNote
    minNote := jlimitInt 0 127 minNote
    maxNote := jlimitInt 0 127 maxNote
    length := bufNumSamples audioData
    numChannels := (audioData.length : ℤ)
    sourceSampleRate := 44100 }

/-- MultiSamplerSound::appliesToNote. -/
def MultiSamplerSound.appliesToNote (s : MultiSamplerSound) (midiNoteNumber : ℤ) : Bool :=
  s.minNote ≤ midiNoteNumber ∧ midiNoteNumber ≤ s.maxNote

/-- MultiSamplerSound::getAudioData: a channel pointer, or null for a
channel index outside the stored data. -/
def MultiSamplerSound.getAudioData (s : MultiSamplerSound) (channel : ℤ) : Option (List ℚ) :=
  if 0 ≤ channel ∧ channel < (s.data.length : ℤ) then some (s.data.getD channel.toNat [])
  else none

/-- The MultiSamplerInstrument state touched by the verified operations. -/
structure MultiSamplerInstrument where
  config : MultiSamplerConfig
  sampleSlots : List Bool := List.replicate 16 false
  sounds : List MultiSamplerSound := []
  currentSampleRate : ℚ := 44100
  currentBlockSize : ℤ := 512
  deriving DecidableEq

/-- MultiSamplerInstrument::isValidSlot. -/
def MultiSamplerInstrument.isValidSlot (slotIndex : ℤ) : Bool :=
  0 ≤ slotIndex ∧ slotIndex < 16

/-- MultiSamplerInstrument::loadSampleFromBuffer: reject an invalid slot
or an empty buffer, otherwise construct a MultiSamplerSound from the data
and note mapping, add it to the synthesiser's sound bank and mark the
slot. The `sampleRate` argument is accepted but never reaches the sound,
exactly as in the source. -/
def MultiSamplerInstrument.loadSampleFromBuffer (inst : MultiSamplerInstrument)
    (slotIndex : ℤ) (audioData : List (List ℚ)) (sampleRate : ℚ)
    (sampleConfig : SampleConfig) : Bool × MultiSamplerInstrument :=
  if ¬ MultiSamplerInstrument.isValidSlot slotIndex then (false, inst)
  else if bufNumSamples audioData = 0 then (false, inst)
  else
    let sound := MultiSamplerSound.create
      (if sampleConfig.name = "" then "Sample " ++ toString slotIndex else sampleConfig.name)
      audioData sampleConfig.rootNote sampleConfig.minNote sampleConfig.maxNote
    (true, { inst with sounds := inst.sounds ++ [sound],
                       sampleSlots := inst.sampleSlots.set slotIndex.toNat true })

/-- MultiSamplerInstrument::clearSample: only the slot flag is cleared. -/
def MultiSamplerInstrument.clearSample (inst : MultiSamplerInstrument) (slotIndex : ℤ) :
    MultiSamplerInstrument :=
  if ¬ MultiSamplerInstrument.isValidSlot slotIndex then inst
  else { inst with sampleSlots := inst.sampleSlots.set slotIndex.toNat false }

/-- MultiSamplerInstrument::clearAllSamples: the synthesiser's sound bank
is cleared and every slot flag reset. -/
def MultiSamplerInstrument.clearAllSamples (inst : MultiSamplerInstrument) :
    MultiSamplerInstrument :=
  { inst with sounds := [], sampleSlots := List.replicate 16 false }

/-- MultiSamplerInstrument::prepareToPlay. -/
def MultiSamplerInstrument.prepareToPlay (inst : MultiSamplerInstrument)
    (sampleRate : ℚ) (samplesPerBlock : ℤ) : MultiSamplerInstrument :=
  { inst with currentSampleRate := sampleRate, currentBlockSize := samplesPerBlock }

-- ══════════════════════════════════════════════════════════════════════
-- Sample-playback voice (MultisamplerVoice.cpp)
-- ══════════════════════════════════════════════════════════════════════

/-- The pitch ratio computed by MultiSamplerVoice::startNote:
2^((note − rootNote)/12) × 2^(pitchBend/12) × soundSampleRate/engineRate,
where soundSampleRate is read from the sound with getSampleRate(). -/
noncomputable def startNotePitchRatio (sound : MultiSamplerSound) (midiNoteNumber : ℤ)
    (pitchBendSemitones : ℚ) (engineSampleRate : ℚ) : ℝ :=
  let noteDifference : ℤ := midiNoteNumber - sound.rootNote
  let semitonePitchRatio : ℝ := (2 : ℝ) ^ ((noteDifference : ℝ) / 12)
  let pitchBendRatio : ℝ := (2 : ℝ) ^ (((pitchBendSemitones : ℝ)) / 12)
  let sampleRateRatio : ℝ := (sound.sourceSampleRate : ℝ) / (engineSampleRate : ℝ)
  semitonePitchRatio * pitchBendRatio * sampleRateRatio

/-- The pitch ratio stated by the spec, written from the spec's words:
2^((note−rootNote)/12) × sourceSampleRate/engineSampleRate with
sourceSampleRate the rate supplied when the sample was loaded. -/
noncomputable def specPitchRatio (note rootNote : ℤ)
    (suppliedSampleRate engineSampleRate : ℚ) : ℝ :=
  (2 : ℝ) ^ (((note - rootNote : ℤ) : ℝ) / 12) *
    ((suppliedSampleRate : ℝ) / (engineSampleRate : ℝ))

/-- The MultiSamplerVoice state used by renderNextBlock: the voice-active
flag (clearCurrentNote resets it), the envelope, the fractional playback
position, the pitch ratio, velocity, the cached non-owning channel data
pointers and length captured at startNote, and the voice's sample rate. -/
structure MultiSamplerVoiceState where
  active : Bool
  adsr : AdsrState
  sourceSamplePosition : ℚ
  pitchRatio : ℚ
  noteVelocity : ℚ
  leftChannelData : Option (List ℚ)
  rightChannelData : Option (List ℚ)
  soundLength : ℤ
  sampleRate : ℚ
  deriving DecidableEq

/-- The result of one MultiSamplerVoice::renderNextBlock call: the output
channels, the voice state, and the list of base indices `pos` at which the
PCM arrays were dereferenced (each read touches `pos` and `pos + 1`). -/
structure RenderResult where
  outL : List ℚ
  outR : Option (List ℚ)
  voice : MultiSamplerVoiceState
  reads : List ℤ
  deriving DecidableEq

/-- The sample loop of MultiSamplerVoice::renderNextBlock: advance the
envelope (stopping when it goes idle), truncate the playback position,
stop when it has reached length − 1, otherwise linearly interpolate the
two neighbouring PCM frames, accumulate into the output, and advance the
position by the pitch ratio. -/
def renderLoop (data : List ℚ) (rdata : Option (List ℚ)) :
    ℕ → ℕ → MultiSamplerVoiceState → List ℚ → Option (List ℚ) → List ℤ → RenderResult
  | 0, _, v, outL, outR, reads => ⟨outL, outR, v, reads⟩
  | n + 1, i, v, outL, outR, reads =>
    let adv := v.adsr.getNextSample
    let env := adv.1
    let adsr1 := adv.2
    if ¬ adsr1.isActive then
      ⟨outL, outR, { v with adsr := adsr1, active := false }, reads⟩
    else
      let pos : ℤ := cppTrunc v.sourceSamplePosition
      if v.soundLength - 1 ≤ pos then
        ⟨outL, outR, { v with adsr := adsr1, active := false }, reads⟩
      else
        let fraction : ℚ := v.sourceSamplePosition - (pos : ℚ)
        let leftSample := listRead data pos * (1 - fraction) + listRead data (pos + 1) * fraction
        let rightSample :=
          match rdata with
          | some rd => listRead rd pos * (1 - fraction) + listRead rd (pos + 1) * fraction
          | none => leftSample
        let gain := v.noteVelocity * env
        let outL1 := listAddAt outL i (leftSample * gain)
        let outR1 := outR.map (fun o => listAddAt o i (rightSample * gain))
        let v1 := { v with adsr := adsr1,
                           sourceSamplePosition := v.sourceSamplePosition + v.pitchRatio }
        renderLoop data rdata n (i + 1) v1 outL1 outR1 (reads ++ [pos])

/-- MultiSamplerVoice::renderNextBlock: return immediately when the voice
is not active or no sound data is cached; otherwise refresh the envelope's
sample rate and run the sample loop. -/
def MultiSamplerVoice.renderNextBlock (v : MultiSamplerVoiceState)
    (outL : List ℚ) (outR : Option (List ℚ)) (numSamples : ℕ) : RenderResult :=
  match v.active, v.leftChannelData with
  | true, some data =>
    let v1 := if 0 < v.sampleRate then { v with adsr := v.adsr.setSampleRate v.sampleRate } else v
    renderLoop data v.rightChannelData numSamples 0 v1 outL outR []
  | _, _ => ⟨outL, outR, v, []⟩

-- ══════════════════════════════════════════════════════════════════════
-- Mixing engine (AudioEngine.cpp)
-- ══════════════════════════════════════════════════════════════════════

/-- AudioEngine::InstrumentType. -/
inductive InstrumentType
  | Oscillator
  | MultiSampler
  deriving DecidableEq

/-- AudioEngine::InstrumentWrapper: a tagged holder of either instrument. -/
inductive InstrumentWrapper
  | oscillator (inst : Instrument)
  | multiSampler (inst : MultiSamplerInstrument)
  deriving DecidableEq

/-- The wrapper's `type` field, fixed by its constructor. -/
def InstrumentWrapper.type : InstrumentWrapper → InstrumentType
  | InstrumentWrapper.oscillator _ => InstrumentType.Oscillator
  | InstrumentWrapper.multiSampler _ => InstrumentType.MultiSampler

/-- Lookup in the std::map of channel → instrument wrapper. -/
def mapLookup {α : Type} (m : List (ℤ × α)) (k : ℤ) : Option α :=
  match m with
  | [] => none
  | (k0, v0) :: rest => if k0 = k then some v0 else mapLookup rest k

/-- Models `map[k] = v`: replace the entry for k, or insert it. -/
def mapInsert {α : Type} (m : List (ℤ × α)) (k : ℤ) (v : α) : List (ℤ × α) :=
  match m with
  | [] => [(k, v)]
  | (k0, v0) :: rest => if k0 = k then (k, v) :: rest else (k0, v0) :: mapInsert rest k v

/-- Models `map.erase(k)`. -/
def mapErase {α : Type} (m : List (ℤ × α)) (k : ℤ) : List (ℤ × α) :=
  match m with
  | [] => []
  | (k0, v0) :: rest => if k0 = k then rest else (k0, v0) :: mapErase rest k

/-- The AudioEngine state touched by the verified operations. -/
structure EngineState where
  instruments : List (ℤ × InstrumentWrapper) := []
  masterVolume : ℚ := 1
  currentSampleRate : ℚ := 44100
  currentBlockSize : ℤ := 512

/-- AudioEngine::createOscillatorInstrument: reject channels outside 1..16,
otherwise build the instrument, prepare it when a sample rate is known, and
install it on the channel (replacing any previous instrument). -/
def EngineState.createOscillatorInstrument (s : EngineState) (channel : ℤ)
    (config : Config) : Bool × EngineState :=
  if channel < 1 ∨ 16 < channel then (false, s)
  else
    let instrument : Instrument := { config := config }
    let instrument :=
      if 0 < s.currentSampleRate then
        instrument.prepareToPlay s.currentSampleRate s.currentBlockSize
      else instrument
    (true, { s with instruments :=
              mapInsert s.instruments channel (InstrumentWrapper.oscillator instrument) })

/-- AudioEngine::createMultiSamplerInstrument, same channel guard. -/
def EngineState.createMultiSamplerInstrument (s : EngineState) (channel : ℤ)
    (config : MultiSamplerConfig) : Bool × EngineState :=
  if channel < 1 ∨ 16 < channel then (false, s)
  else
    let instrument : MultiSamplerInstrument := { config := config }
    let instrument :=
      if 0 < s.currentSampleRate then
        instrument.prepareToPlay s.currentSampleRate s.currentBlockSize
      else instrument
    (true, { s with instruments :=
              mapInsert s.instruments channel (InstrumentWrapper.multiSampler instrument) })

/-- AudioEngine::removeInstrument. -/
def EngineState.removeInstrument (s : EngineState) (channel : ℤ) : EngineState :=
  { s with instruments := mapErase s.instruments channel }

/-- AudioEngine::hasInstrument. -/
def EngineState.hasInstrument (s : EngineState) (channel : ℤ) : Bool :=
  (mapLookup s.instruments channel).isSome

/-- AudioEngine::getInstrumentType: the wrapper's type when the channel is
occupied, InstrumentType::Oscillator as the default otherwise. -/
def EngineState.getInstrumentType (s : EngineState) (channel : ℤ) : InstrumentType :=
  match mapLookup s.instruments channel with
  | some w => w.type
  | none => InstrumentType.Oscillator

/-- AudioEngine::setMasterVolume. -/
def EngineState.setMasterVolume (s : EngineState) (volume : ℚ) : EngineState :=
  { s with masterVolume := jlimit 0 2 volume }

/-- outputBuffer.addFrom(ch, 0, mixBuffer, ch, 0, numSamples) for one
channel pair: elementwise add of the first numSamples entries. -/
def addPrefix (dst src : List ℚ) (numSamples : ℕ) : List ℚ :=
  dst.mapIdx (fun i x => if i < numSamples then x + src.getD i 0 else x)

/-- The mixing step for one instrument in the render callback: add its
scratch-buffer channels into the output, restricted to
min(numOutputChannels, scratch channel count). -/
def mixInstrumentIntoOutput (out : List (List ℚ)) (mixBuf : List (List ℚ))
    (numSamples : ℕ) : List (List ℚ) :=
  out.mapIdx (fun ch row =>
    match mixBuf.get? ch with
    | some src => addPrefix row src numSamples
    | none => row)

/-- AudioEngine::audioDeviceIOCallbackWithContext, with each instrument's
rendered scratch buffer supplied as input: clear the output, mix every
instrument's contribution additively, then apply the master volume (the
source skips the multiply when it is exactly 1, which is semantically the
identity). -/
def audioDeviceIOCallback (master : ℚ) (rendered : List (List (List ℚ)))
    (numOutputChannels numSamples : ℕ) : List (List ℚ) :=
  let outputBuffer := List.replicate numOutputChannels (List.replicate numSamples (0 : ℚ))
  let mixed := rendered.foldl (fun out mixBuf => mixInstrumentIntoOutput out mixBuf numSamples) outputBuffer
  if master ≠ 1 then mixed.map (fun row => row.map (fun x => x * master)) else mixed

/-- AudioEngine::addEffect: route to the oscillator instrument on the
channel (effects are oscillator-only); -1 when the channel is empty or
holds a sampler. -/
def EngineState.addEffect (s : EngineState) (channel : ℤ) (type : EffectType) :
    ℤ × EngineState :=
  match mapLookup s.instruments channel with
  | some (InstrumentWrapper.oscillator inst) =>
    let (effectId, inst1) := inst.addEffect type
    (effectId,
     { s with instruments :=
        mapInsert s.instruments channel (InstrumentWrapper.oscillator inst1) })
  | _ => (-1, s)

/-- The projection of an Effect onto everything except its enabled flag. -/
def Effect.core (e : Effect) : ℤ × EffectType × Option ProcState :=
  (e.id, e.type, e.processor)

/-- Effect-id bookkeeping invariant of one Instrument: every id in the
chain is below the counter, and no id occurs twice in the chain. -/
def effectIdInvariant (inst : Instrument) : Prop :=
  (∀ e ∈ inst.effectsChain, e.id < inst.nextEffectId) ∧
  (inst.effectsChain.map Effect.id).Nodup

/-- An instantiation of the EffectProcessor::processBlock virtual
dispatch: the Delay effect runs its concrete embedded processBlock; the
Reverb and Filter effects delegate their sample processing to external
library DSP (juce::Reverb, juce::dsp::IIR) and so pass the buffer through
here. -/
def procBlockDispatch (p : ProcState) (buffer : List (List ℚ)) :
    ProcState × List (List ℚ) :=
  match p with
  | ProcState.delay d =>
    let (d1, b1) := SimpleDelayProcessor.processBlock d buffer
    (ProcState.delay d1, b1)
  | other => (other, buffer)

-- ══════════════════════════════════════════════════════════════════════
-- Shared lemmas
-- ══════════════════════════════════════════════════════════════════════

theorem mapLookup_mapInsert_self {α : Type} (m : List (ℤ × α)) (k : ℤ) (v : α) :
    mapLookup (mapInsert m k v) k = some v := by
  induction m with
  | nil => simp [mapInsert, mapLookup]
  | cons hd tl ih =>
    obtain ⟨k0, v0⟩ := hd
    by_cases h : k0 = k
    · simp [mapInsert, mapLookup, h]
    · simp [mapInsert, mapLookup, h, ih]

theorem jlimit_bounds (lo hi v : ℚ) (h : lo ≤ hi) :
    lo ≤ jlimit lo hi v ∧ jlimit lo hi v ≤ hi := by
  unfold jlimit
  split_ifs with h1 h2 <;> constructor <;> linarith

theorem jlimit_of_mem (lo hi v : ℚ) (h1 : lo ≤ v) (h2 : v ≤ hi) :
    jlimit lo hi v = v := by
  unfold jlimit
  split_ifs with ha hb
  · linarith
  · linarith
  · rfl

theorem cppTrunc_nonneg {q : ℚ} (h : 0 ≤ q) : 0 ≤ cppTrunc q := by
  unfold cppTrunc
  rw [if_neg (not_lt.mpr h)]
  exact Int.floor_nonneg.mpr h

-- ══════════════════════════════════════════════════════════════════════
-- C1: channel validation of instrument creation
-- ══════════════════════════════════════════════════════════════════════

/-- C1: for every channel in 1..16, createOscillatorInstrument and
createMultiSamplerInstrument return success and hasInstrument(channel) is
subsequently true; for any channel outside 1..16 both calls return failure,
leave the engine unchanged, and hasInstrument(channel) keeps its previous
value (false on an engine that never held that channel). -/
theorem createInstrument_channel_validation (s : EngineState) (channel : ℤ)
    (cfgO : Config) (cfgM : MultiSamplerConfig) :
    ((1 ≤ channel ∧ channel ≤ 16) →
      ((s.createOscillatorInstrument channel cfgO).1 = true ∧
       (s.createOscillatorInstrument channel cfgO).2.hasInstrument channel = true ∧
       (s.createMultiSamplerInstrument channel cfgM).1 = true ∧
       (s.createMultiSamplerInstrument channel cfgM).2.hasInstrument channel = true)) ∧
    ((channel < 1 ∨ 16 < channel) →
      ((s.createOscillatorInstrument channel cfgO).1 = false ∧
       (s.createOscillatorInstrument channel cfgO).2 = s ∧
       (s.createMultiSamplerInstrument channel cfgM).1 = false ∧
       (s.createMultiSamplerInstrument channel cfgM).2 = s)) ∧
    ({ } : EngineState).hasInstrument channel = false := by
  refine ⟨?_, ?_, ?_⟩
  · rintro ⟨h1, h2⟩
    have hguard : ¬ (channel < 1 ∨ 16 < channel) := by omega
    simp [EngineState.createOscillatorInstrument, EngineState.createMultiSamplerInstrument,
          hguard, EngineState.hasInstrument, mapLookup_mapInsert_self]
  · intro h
    simp [EngineState.createOscillatorInstrument, EngineState.createMultiSamplerInstrument, h]
  · simp [EngineState.hasInstrument, mapLookup]

/-- Witness for C1 at channels 5 (valid) and 0 and 17 (invalid) on the
fresh engine. -/
theorem createInstrument_channel_validation_witness :
    (((({} : EngineState).createOscillatorInstrument 5 {}).1 = true ∧
      (({} : EngineState).createOscillatorInstrument 5 {}).2.hasInstrument 5 = true ∧
      (({} : EngineState).createMultiSamplerInstrument 5 {}).1 = true ∧
      (({} : EngineState).createMultiSamplerInstrument 5 {}).2.hasInstrument 5 = true) ∧
     ((({} : EngineState).createOscillatorInstrument 0 {}).1 = false ∧
      (({} : EngineState).createOscillatorInstrument 0 {}).2 = {} ∧
      (({} : EngineState).createMultiSamplerInstrument 0 {}).1 = false ∧
      (({} : EngineState).createMultiSamplerInstrument 0 {}).2 = {}) ∧
     ((({} : EngineState).createOscillatorInstrument 17 {}).1 = false ∧
      (({} : EngineState).createMultiSamplerInstrument 17 {}).1 = false)) :=
  ⟨(createInstrument_channel_validation {} 5 {} {}).1 ⟨by decide, by decide⟩,
   (createInstrument_channel_validation {} 0 {} {}).2.1 (Or.inl (by decide)),
   ((createInstrument_channel_validation {} 17 {} {}).2.1 (Or.inr (by decide))).1,
   ((createInstrument_channel_validation {} 17 {} {}).2.1 (Or.inr (by decide))).2.2.1⟩

-- ══════════════════════════════════════════════════════════════════════
-- C10: getInstrumentType defaults to Oscillator on empty channels
-- ══════════════════════════════════════════════════════════════════════

/-- C10: for every channel with no instrument, getInstrumentType returns
InstrumentType::Oscillator as a default, the same value it returns for a
channel actually holding an oscillator instrument — so this query alone
cannot distinguish the two and hasInstrument must be consulted. -/
theorem getInstrumentType_default_oscillator (s : EngineState) (channel : ℤ)
    (cfg : Config) :
    (s.hasInstrument channel = false →
      s.getInstrumentType channel = InstrumentType.Oscillator) ∧
    (1 ≤ channel → channel ≤ 16 →
      ((s.createOscillatorInstrument channel cfg).2.getInstrumentType channel
          = InstrumentType.Oscillator ∧
       (s.createOscillatorInstrument channel cfg).2.hasInstrument channel = true)) := by
  constructor
  · intro h
    unfold EngineState.hasInstrument at h
    unfold EngineState.getInstrumentType
    cases hl : mapLookup s.instruments channel with
    | none => simp
    | some w => rw [hl] at h; simp at h
  · intro h1 h2
    have hguard : ¬ (channel < 1 ∨ 16 < channel) := by omega
    simp [EngineState.createOscillatorInstrument, hguard, EngineState.getInstrumentType,
          EngineState.hasInstrument, mapLookup_mapInsert_self, InstrumentWrapper.type]

/-- Witness for C10: the empty engine at channel 3, and channel 3 after a
valid creation, both answer Oscillator; hasInstrument tells them apart. -/
theorem getInstrumentType_default_oscillator_witness :
    (({} : EngineState).hasInstrument 3 = false ∧
     ({} : EngineState).getInstrumentType 3 = InstrumentType.Oscillator) ∧
    ((({} : EngineState).createOscillatorInstrument 3 {}).2.getInstrumentType 3
        = InstrumentType.Oscillator ∧
     (({} : EngineState).createOscillatorInstrument 3 {}).2.hasInstrument 3 = true) :=
  ⟨⟨by decide, (getInstrumentType_default_oscillator {} 3 {}).1 (by decide)⟩,
   (getInstrumentType_default_oscillator {} 3 {}).2 (by decide) (by decide)⟩

-- ══════════════════════════════════════════════════════════════════════
-- C4: master volume clamp; zero master volume silences the output
-- ══════════════════════════════════════════════════════════════════════

/-- C4: setMasterVolume stores its argument clamped to [0,2] (so the
stored value is always in [0,2] and equals the argument when the argument
already lies in range), and a master volume of 0 makes the render callback
produce all-zero output for every frame, whatever the instruments'
rendered contributions are. -/
theorem setMasterVolume_clamp_and_zero_silence (s : EngineState) (v : ℚ)
    (rendered : List (List (List ℚ))) (numOutputChannels numSamples : ℕ) :
    (s.setMasterVolume v).masterVolume = jlimit 0 2 v ∧
    (0 ≤ (s.setMasterVolume v).masterVolume ∧ (s.setMasterVolume v).masterVolume ≤ 2) ∧
    (0 ≤ v → v ≤ 2 → (s.setMasterVolume v).masterVolume = v) ∧
    (v = 0 →
      ∀ row ∈ audioDeviceIOCallback (s.setMasterVolume v).masterVolume rendered
          numOutputChannels numSamples,
        ∀ x ∈ row, x = 0) := by
  refine ⟨rfl, jlimit_bounds 0 2 v (by norm_num), jlimit_of_mem 0 2 v, ?_⟩
  intro hv row hrow x hx
  subst hv
  have hm : (s.setMasterVolume 0).masterVolume = 0 := by
    simp [EngineState.setMasterVolume, jlimit]
  rw [hm] at hrow
  have hne : (0 : ℚ) ≠ 1 := by norm_num
  simp only [audioDeviceIOCallback, if_pos hne] at hrow
  rcases List.mem_map.mp hrow with ⟨row0, _, hr⟩
  subst hr
  rcases List.mem_map.mp hx with ⟨y, _, hy⟩
  simp [← hy]

/-- Witness for C4 at v = 0 with one rendered stereo contribution. -/
theorem setMasterVolume_clamp_and_zero_silence_witness :
    (({} : EngineState).setMasterVolume 0).masterVolume = jlimit 0 2 0 ∧
    (0 ≤ (({} : EngineState).setMasterVolume 0).masterVolume ∧
     (({} : EngineState).setMasterVolume 0).masterVolume ≤ 2) ∧
    (({} : EngineState).setMasterVolume 0).masterVolume = 0 ∧
    ∀ row ∈ audioDeviceIOCallback (({} : EngineState).setMasterVolume 0).masterVolume
        [[[3, -4], [5, 6]]] 2 2,
      ∀ x ∈ row, x = 0 :=
  ⟨(setMasterVolume_clamp_and_zero_silence {} 0 [[[3, -4], [5, 6]]] 2 2).1,
   (setMasterVolume_clamp_and_zero_silence {} 0 [[[3, -4], [5, 6]]] 2 2).2.1,
   (setMasterVolume_clamp_and_zero_silence {} 0 [[[3, -4], [5, 6]]] 2 2).2.2.1
     (by norm_num) (by norm_num),
   (setMasterVolume_clamp_and_zero_silence {} 0 [[[3, -4], [5, 6]]] 2 2).2.2.2 rfl⟩

-- ══════════════════════════════════════════════════════════════════════
-- C8: effect ids are monotonic per instrument, not process-unique
-- ══════════════════════════════════════════════════════════════════════

/-- C8 counterexample: on a fresh engine with oscillator instruments on
channels 1 and 2, addEffect on channel 1 and then addEffect on channel 2
both return id 1 — two distinct effects in the process share an id,
because each Instrument keeps its own nextEffectId counter starting at 1. -/
theorem addEffect_ids_collide_across_channels :
    ((((({} : EngineState).createOscillatorInstrument 1
          {}).2.createOscillatorInstrument 2 {}).2.addEffect 1 EffectType.Reverb).1 = 1 ∧
     ((((({} : EngineState).createOscillatorInstrument 1
          {}).2.createOscillatorInstrument 2 {}).2.addEffect 1
            EffectType.Reverb).2.addEffect 2 EffectType.Filter).1 = 1) := by
  decide

/-- C8 amended: every successful addEffect call returns an id strictly
greater than all ids previously issued by the same Instrument, and no two
effects within one Instrument ever share an id (each Instrument's counter
starts at 1, so ids are unique per instrument, not process-wide). -/
theorem addEffect_monotonic_per_instrument (inst : Instrument) (type : EffectType)
    (h : effectIdInvariant inst) :
    ((inst.addEffect type).1 ≠ -1 →
      ∀ e ∈ inst.effectsChain, e.id < (inst.addEffect type).1) ∧
    effectIdInvariant (inst.addEffect type).2 ∧
    (∀ cfg : Config, effectIdInvariant { config := cfg }) := by
  have hinit : ∀ cfg : Config, effectIdInvariant { config := cfg } := by
    intro cfg
    constructor
    · intro e he
      simp at he
    · simp
  rcases hE : Instrument.createEffect type with _ | proc
  · refine ⟨?_, ?_, hinit⟩
    · intro hne
      exfalso
      exact hne (by simp [Instrument.addEffect, hE])
    · simpa [Instrument.addEffect, hE] using h
  · refine ⟨?_, ⟨?_, ?_⟩, hinit⟩
    · intro _ e he
      have := h.1 e he
      simpa [Instrument.addEffect, hE] using this
    · intro e he
      simp only [Instrument.addEffect, hE] at he ⊢
      rcases List.mem_append.mp he with h1 | h1
      · have := h.1 e h1
        omega
      · simp at h1
        subst h1
        show inst.nextEffectId < inst.nextEffectId + 1
        omega
    · simp only [Instrument.addEffect, hE, List.map_append]
      refine List.Nodup.append h.2 (List.nodup_singleton _) ?_
      intro a ha hb
      simp only [List.map_cons, List.map_nil, List.mem_singleton] at hb
      rcases List.mem_map.mp ha with ⟨e, he, rfl⟩
      have h2 := h.1 e he
      have hb2 : Effect.id e = inst.nextEffectId := hb
      omega

/-- Witness for C8's amended theorem on a fresh instrument gaining a
Reverb effect. -/
theorem addEffect_monotonic_per_instrument_witness :
    effectIdInvariant ({ config := {} } : Instrument) ∧
    ((({ config := {} } : Instrument).addEffect EffectType.Reverb).1 ≠ -1 →
      ∀ e ∈ ({ config := {} } : Instrument).effectsChain,
        e.id < (({ config := {} } : Instrument).addEffect EffectType.Reverb).1) ∧
    effectIdInvariant (({ config := {} } : Instrument).addEffect EffectType.Reverb).2 :=
  ⟨by constructor
      · intro e he
        simp at he
      · simp,
   (addEffect_monotonic_per_instrument { config := {} } EffectType.Reverb
      ⟨by intro e he; simp at he, by simp⟩).1,
   (addEffect_monotonic_per_instrument { config := {} } EffectType.Reverb
      ⟨by intro e he; simp at he, by simp⟩).2.1⟩

-- ══════════════════════════════════════════════════════════════════════
-- C6: unknown effect parameter names are case-insensitive no-ops
-- ══════════════════════════════════════════════════════════════════════

theorem eqIgnoreCase_false_of_target {a b low : String}
    (hb : strToLower b = low) (h : strToLower a ≠ low) : eqIgnoreCase a b = false := by
  simp [eqIgnoreCase, hb, h]

theorem applyEffectParameter_unknown (type : EffectType) (p : ProcState)
    (name : String) (value : ℚ) (h : strToLower name ∉ knownParams type) :
    applyEffectParameter type p name value = p := by
  cases type <;> cases p <;> try rfl
  case Reverb.reverb r =>
    simp only [knownParams, List.mem_cons, List.not_mem_nil, or_false] at h
    push_neg at h
    obtain ⟨h1, h2, h3, h4, h5⟩ := h
    simp [applyEffectParameter,
      eqIgnoreCase_false_of_target (show strToLower "roomSize" = "roomsize" by decide) h1,
      eqIgnoreCase_false_of_target (show strToLower "damping" = "damping" by decide) h2,
      eqIgnoreCase_false_of_target (show strToLower "wetLevel" = "wetlevel" by decide) h3,
      eqIgnoreCase_false_of_target (show strToLower "dryLevel" = "drylevel" by decide) h4,
      eqIgnoreCase_false_of_target (show strToLower "width" = "width" by decide) h5]
  case Delay.delay d =>
    simp only [knownParams, List.mem_cons, List.not_mem_nil, or_false] at h
    push_neg at h
    obtain ⟨h1, h2, h3⟩ := h
    simp [applyEffectParameter,
      eqIgnoreCase_false_of_target (show strToLower "delayTime" = "delaytime" by decide) h1,
      eqIgnoreCase_false_of_target (show strToLower "feedback" = "feedback" by decide) h2,
      eqIgnoreCase_false_of_target (show strToLower "wetLevel" = "wetlevel" by decide) h3]
  case Filter.filter f =>
    simp only [knownParams, List.mem_cons, List.not_mem_nil, or_false] at h
    push_neg at h
    obtain ⟨h1, h2, h3, h4, h5⟩ := h
    simp [applyEffectParameter,
      eqIgnoreCase_false_of_target (show strToLower "cutoff" = "cutoff" by decide) h1,
      eqIgnoreCase_false_of_target (show strToLower "frequency" = "frequency" by decide) h2,
      eqIgnoreCase_false_of_target (show strToLower "resonance" = "resonance" by decide) h3,
      eqIgnoreCase_false_of_target (show strToLower "q" = "q" by decide) h4,
      eqIgnoreCase_false_of_target (show strToLower "type" = "type" by decide) h5]

theorem setParameterInChain_unknown (chain : List Effect) (effectId : ℤ)
    (name : String) (value : ℚ)
    (h : ∀ e ∈ chain, e.id = effectId → strToLower name ∉ knownParams e.type) :
    setParameterInChain chain effectId name value = chain := by
  induction chain with
  | nil => rfl
  | cons e rest ih =>
    simp only [setParameterInChain]
    by_cases hid : e.id = effectId
    · rw [if_pos hid]
      cases hp : e.processor with
      | none => rfl
      | some p =>
        show ({ e with processor := some (applyEffectParameter e.type p name value) } :: rest)
          = e :: rest
        rw [applyEffectParameter_unknown e.type p name value
              (h e (List.mem_cons_self e rest) hid), ← hp]
    · rw [if_neg hid, ih (fun e' he' => h e' (List.mem_cons_of_mem e he'))]

theorem applyEffectParameter_ext (type : EffectType) (p : ProcState) (value : ℚ)
    {n1 n2 : String} (h : strToLower n1 = strToLower n2) :
    applyEffectParameter type p n1 value = applyEffectParameter type p n2 value := by
  have hc : ∀ b, eqIgnoreCase n1 b = eqIgnoreCase n2 b := by
    intro b
    simp [eqIgnoreCase, h]
  cases type <;> cases p <;> simp only [applyEffectParameter, hc]

theorem setParameterInChain_ext (chain : List Effect) (effectId : ℤ) (value : ℚ)
    {n1 n2 : String} (h : strToLower n1 = strToLower n2) :
    setParameterInChain chain effectId n1 value = setParameterInChain chain effectId n2 value := by
  induction chain with
  | nil => rfl
  | cons e rest ih =>
    simp only [setParameterInChain]
    by_cases hid : e.id = effectId
    · rw [if_pos hid, if_pos hid]
      cases hp : e.processor with
      | none => rfl
      | some p =>
        show ({ e with processor := some (applyEffectParameter e.type p n1 value) } :: rest)
          = { e with processor := some (applyEffectParameter e.type p n2 value) } :: rest
        rw [applyEffectParameter_ext e.type p value h]
    · rw [if_neg hid, if_neg hid, ih]

/-- C6: setEffectParameter matches parameter names case-insensitively
(names equal after case folding are handled identically), and a name
outside the addressed effect type's known parameter set changes nothing
in the instrument; the operation's only outcome is the returned state —
there is no error channel. -/
theorem setEffectParameter_unknown_name_noop (inst : Instrument) (effectId : ℤ)
    (paramName altName : String) (value : ℚ)
    (hci : strToLower paramName = strToLower altName)
    (h : ∀ e ∈ inst.effectsChain, e.id = effectId →
      strToLower paramName ∉ knownParams e.type) :
    inst.setEffectParameter effectId paramName value
      = inst.setEffectParameter effectId altName value ∧
    inst.setEffectParameter effectId paramName value = inst := by
  constructor
  · unfold Instrument.setEffectParameter
    rw [setParameterInChain_ext inst.effectsChain effectId value hci]
  · unfold Instrument.setEffectParameter
    rw [setParameterInChain_unknown _ _ _ _ h]

/-- Witness for C6: the reverb parameter name "roomSize" addressed at a
Delay effect (a parameter of a different effect type) leaves the
instrument unchanged. -/
theorem setEffectParameter_unknown_name_noop_witness :
    (∀ e ∈ (Instrument.mk {}
        [⟨1, EffectType.Delay, true, some (ProcState.delay ⟨[0], [0], 0, 500, 2/5, 1/2, 44100⟩)⟩]
        44100 512 2).effectsChain,
        e.id = 1 → strToLower "roomSize" ∉ knownParams e.type) ∧
    strToLower "roomSize" = strToLower "ROOMSIZE" ∧
    (Instrument.mk {}
        [⟨1, EffectType.Delay, true, some (ProcState.delay ⟨[0], [0], 0, 500, 2/5, 1/2, 44100⟩)⟩]
        44100 512 2).setEffectParameter 1 "roomSize" 5
      = (Instrument.mk {}
        [⟨1, EffectType.Delay, true, some (ProcState.delay ⟨[0], [0], 0, 500, 2/5, 1/2, 44100⟩)⟩]
        44100 512 2).setEffectParameter 1 "ROOMSIZE" 5 ∧
    (Instrument.mk {}
        [⟨1, EffectType.Delay, true, some (ProcState.delay ⟨[0], [0], 0, 500, 2/5, 1/2, 44100⟩)⟩]
        44100 512 2).setEffectParameter 1 "roomSize" 5
      = Instrument.mk {}
          [⟨1, EffectType.Delay, true, some (ProcState.delay ⟨[0], [0], 0, 500, 2/5, 1/2, 44100⟩)⟩]
          44100 512 2 :=
  ⟨by decide, by decide,
   (setEffectParameter_unknown_name_noop _ 1 "roomSize" "ROOMSIZE" 5 (by decide) (by decide)).1,
   (setEffectParameter_unknown_name_noop _ 1 "roomSize" "ROOMSIZE" 5 (by decide) (by decide)).2⟩

-- ══════════════════════════════════════════════════════════════════════
-- C7: setEffectEnabled toggles only the flag; disabled effects are skipped
-- ══════════════════════════════════════════════════════════════════════

theorem setEnabledInChain_core (chain : List Effect) (effectId : ℤ) (enabled : Bool) :
    (setEnabledInChain chain effectId enabled).map Effect.core = chain.map Effect.core := by
  induction chain with
  | nil => rfl
  | cons e rest ih =>
    simp only [setEnabledInChain]
    by_cases hid : e.id = effectId
    · rw [if_pos hid]
      simp [Effect.core]
    · rw [if_neg hid]
      simp [ih]

theorem setEnabledInChain_other_ids (chain : List Effect) (effectId : ℤ) (enabled : Bool) :
    List.Forall₂ (fun a b => a.id ≠ effectId → b = a) chain
      (setEnabledInChain chain effectId enabled) := by
  induction chain with
  | nil => exact List.Forall₂.nil
  | cons e rest ih =>
    simp only [setEnabledInChain]
    by_cases hid : e.id = effectId
    · rw [if_pos hid]
      exact List.Forall₂.cons (fun hne => absurd hid hne)
        (List.forall₂_same.mpr (fun x _ _ => rfl))
    · rw [if_neg hid]
      exact List.Forall₂.cons (fun _ => rfl) ih

theorem processEffectsChain_skips_disabled
    (pb : ProcState → List (List ℚ) → ProcState × List (List ℚ))
    (e : Effect) (he : e.enabled = false) :
    ∀ (pre post : List Effect) (buffer : List (List ℚ)),
      processEffectsChain pb (pre ++ e :: post) buffer
        = ((processEffectsChain pb (pre ++ post) buffer).1.take pre.length
             ++ e :: (processEffectsChain pb (pre ++ post) buffer).1.drop pre.length,
           (processEffectsChain pb (pre ++ post) buffer).2) := by
  intro pre
  induction pre with
  | nil =>
    intro post buffer
    simp only [List.nil_append, List.length_nil, List.take_zero, List.drop_zero]
    simp only [processEffectsChain, he]
  | cons a pre ih =>
    intro post buffer
    simp only [List.cons_append, List.length_cons]
    cases hea : a.enabled with
    | false =>
      simp only [processEffectsChain, hea, ih post buffer, List.take_succ_cons,
        List.drop_succ_cons]
      simp
    | true =>
      cases hpa : a.processor with
      | none =>
        simp only [processEffectsChain, hea, hpa, ih post buffer, List.take_succ_cons,
          List.drop_succ_cons]
        simp
      | some p =>
        simp only [processEffectsChain, hea, hpa, List.take_succ_cons, List.drop_succ_cons]
        rw [ih post (pb p buffer).2]
        simp

/-- C7: setEffectEnabled changes only enabled flags (every effect's id,
type and processor state are untouched) and leaves every effect whose id
differs entirely unchanged; in the per-block effects loop a disabled
effect is simply not run: the resulting buffer equals the buffer the
chain without that effect produces, and the disabled effect's own state
passes through untouched while every other effect evolves exactly as it
would without it. -/
theorem setEffectEnabled_flag_only_and_disabled_skipped
    (inst : Instrument) (effectId : ℤ) (enabled : Bool)
    (pb : ProcState → List (List ℚ) → ProcState × List (List ℚ))
    (pre post : List Effect) (e : Effect) (buffer : List (List ℚ))
    (he : e.enabled = false) :
    ((inst.setEffectEnabled effectId enabled).effectsChain.map Effect.core
        = inst.effectsChain.map Effect.core) ∧
    (List.Forall₂ (fun a b => a.id ≠ effectId → b = a) inst.effectsChain
        (inst.setEffectEnabled effectId enabled).effectsChain) ∧
    (processEffectsChain pb (pre ++ e :: post) buffer
        = ((processEffectsChain pb (pre ++ post) buffer).1.take pre.length
             ++ e :: (processEffectsChain pb (pre ++ post) buffer).1.drop pre.length,
           (processEffectsChain pb (pre ++ post) buffer).2)) :=
  ⟨setEnabledInChain_core inst.effectsChain effectId enabled,
   setEnabledInChain_other_ids inst.effectsChain effectId enabled,
   processEffectsChain_skips_disabled pb e he pre post buffer⟩

/-- Witness for C7: a two-effect instrument whose Delay effect is
disabled, rendered through the concrete dispatch on a one-channel buffer. -/
theorem setEffectEnabled_flag_only_and_disabled_skipped_witness :
    ((Instrument.mk {} [⟨1, EffectType.Reverb, true, Instrument.createEffect EffectType.Reverb⟩]
        44100 512 2).setEffectEnabled 1 false).effectsChain.map Effect.core
      = (Instrument.mk {} [⟨1, EffectType.Reverb, true, Instrument.createEffect EffectType.Reverb⟩]
        44100 512 2).effectsChain.map Effect.core ∧
    (⟨2, EffectType.Delay, false, some (ProcState.delay ⟨[7, 8], [7, 8], 0, 500, 2/5, 1/2, 44100⟩)⟩
        : Effect).enabled = false ∧
    processEffectsChain procBlockDispatch
        ([] ++ (⟨2, EffectType.Delay, false,
            some (ProcState.delay ⟨[7, 8], [7, 8], 0, 500, 2/5, 1/2, 44100⟩)⟩ : Effect) :: [])
        [[1, 0]]
      = ((processEffectsChain procBlockDispatch ([] ++ []) [[1, 0]]).1.take (List.length ([] : List Effect))
           ++ (⟨2, EffectType.Delay, false,
                some (ProcState.delay ⟨[7, 8], [7, 8], 0, 500, 2/5, 1/2, 44100⟩)⟩ : Effect)
             :: (processEffectsChain procBlockDispatch ([] ++ []) [[1, 0]]).1.drop
                  (List.length ([] : List Effect)),
         (processEffectsChain procBlockDispatch ([] ++ []) [[1, 0]]).2) :=
  ⟨(setEffectEnabled_flag_only_and_disabled_skipped
      (Instrument.mk {} [⟨1, EffectType.Reverb, true, Instrument.createEffect EffectType.Reverb⟩]
        44100 512 2) 1 false procBlockDispatch [] []
      ⟨2, EffectType.Delay, false, some (ProcState.delay ⟨[7, 8], [7, 8], 0, 500, 2/5, 1/2, 44100⟩)⟩
      [[1, 0]] rfl).1,
   rfl,
   (setEffectEnabled_flag_only_and_disabled_skipped
      (Instrument.mk {} [⟨1, EffectType.Reverb, true, Instrument.createEffect EffectType.Reverb⟩]
        44100 512 2) 1 false procBlockDispatch [] []
      ⟨2, EffectType.Delay, false, some (ProcState.delay ⟨[7, 8], [7, 8], 0, 500, 2/5, 1/2, 44100⟩)⟩
      [[1, 0]] rfl).2.2⟩

-- ══════════════════════════════════════════════════════════════════════
-- C5: delay mix law, feedback-through-delay-line-only, clamped length
-- ══════════════════════════════════════════════════════════════════════

/-- C5: in every iteration of the delay's sample loop the output equals
dry×(1−wet) + delayed×wet on each channel, the value written into the
circular delay buffer equals dry + feedback×delayed (so feedback
compounds only through the delay line, never through the dry path), and
the delay length in samples used by processBlock is clamped into
[1, bufferSize−1], never exceeding the allocated circular buffer. -/
theorem delay_dry_wet_feedback_and_clamp (st : DelayState) (bufferSize delaySamples : ℤ)
    (stereo : Bool) (l r : ℚ) (hbs : 2 ≤ bufferSize) :
    ((delayStep st bufferSize delaySamples stereo l r).1
        = l * (1 - st.wetLevel)
          + listRead st.delayBufferL (delayReadPos st.writePosition delaySamples bufferSize)
              * st.wetLevel) ∧
    (stereo = true →
      (delayStep st bufferSize delaySamples stereo l r).2.1
        = r * (1 - st.wetLevel)
          + listRead st.delayBufferR (delayReadPos st.writePosition delaySamples bufferSize)
              * st.wetLevel) ∧
    ((delayStep st bufferSize delaySamples stereo l r).2.2.delayBufferL
        = listWrite st.delayBufferL st.writePosition
            (l + listRead st.delayBufferL (delayReadPos st.writePosition delaySamples bufferSize)
                   * st.feedback)) ∧
    (stereo = true →
      (delayStep st bufferSize delaySamples stereo l r).2.2.delayBufferR
        = listWrite st.delayBufferR st.writePosition
            (r + listRead st.delayBufferR (delayReadPos st.writePosition delaySamples bufferSize)
                   * st.feedback)) ∧
    (1 ≤ delaySamplesFor st bufferSize ∧ delaySamplesFor st bufferSize ≤ bufferSize - 1) := by
  refine ⟨rfl, ?_, rfl, ?_, ?_⟩
  · intro hstereo
    subst hstereo
    rfl
  · intro hstereo
    subst hstereo
    rfl
  · unfold delaySamplesFor jlimitInt
    split_ifs with h1 h2 <;> omega

/-- Witness for C5 on a concrete stereo delay state with a 4-sample
buffer. -/
theorem delay_dry_wet_feedback_and_clamp_witness :
    (2 ≤ (4 : ℤ)) ∧
    ((delayStep ⟨[1, 2, 3, 4], [5, 6, 7, 8], 0, 500, 2/5, 1/2, 44100⟩ 4 2 true 9 10).1
        = 9 * (1 - (1/2 : ℚ)) + listRead [1, 2, 3, 4] (delayReadPos 0 2 4) * (1/2)) ∧
    ((delayStep ⟨[1, 2, 3, 4], [5, 6, 7, 8], 0, 500, 2/5, 1/2, 44100⟩ 4 2 true 9 10).2.1
        = 10 * (1 - (1/2 : ℚ)) + listRead [5, 6, 7, 8] (delayReadPos 0 2 4) * (1/2)) ∧
    ((delayStep ⟨[1, 2, 3, 4], [5, 6, 7, 8], 0, 500, 2/5, 1/2, 44100⟩ 4 2 true 9 10).2.2.delayBufferL
        = listWrite [1, 2, 3, 4] 0 (9 + listRead [1, 2, 3, 4] (delayReadPos 0 2 4) * (2/5))) ∧
    (1 ≤ delaySamplesFor ⟨[1, 2, 3, 4], [5, 6, 7, 8], 0, 500, 2/5, 1/2, 44100⟩ 4 ∧
     delaySamplesFor ⟨[1, 2, 3, 4], [5, 6, 7, 8], 0, 500, 2/5, 1/2, 44100⟩ 4 ≤ 4 - 1) :=
  ⟨by decide,
   (delay_dry_wet_feedback_and_clamp ⟨[1, 2, 3, 4], [5, 6, 7, 8], 0, 500, 2/5, 1/2, 44100⟩
      4 2 true 9 10 (by decide)).1,
   (delay_dry_wet_feedback_and_clamp ⟨[1, 2, 3, 4], [5, 6, 7, 8], 0, 500, 2/5, 1/2, 44100⟩
      4 2 true 9 10 (by decide)).2.1 rfl,
   (delay_dry_wet_feedback_and_clamp ⟨[1, 2, 3, 4], [5, 6, 7, 8], 0, 500, 2/5, 1/2, 44100⟩
      4 2 true 9 10 (by decide)).2.2.1,
   (delay_dry_wet_feedback_and_clamp ⟨[1, 2, 3, 4], [5, 6, 7, 8], 0, 500, 2/5, 1/2, 44100⟩
      4 2 true 9 10 (by decide)).2.2.2.2⟩

-- ══════════════════════════════════════════════════════════════════════
-- C2: the supplied sample rate never reaches the sound's pitch math
-- ══════════════════════════════════════════════════════════════════════

/-- C2 (code defect): loadSampleFromBuffer accepts a sample rate but never
stores it — the constructed MultiSamplerSound always carries
sourceSampleRate = 44100 — so the pitch ratio computed at note-on differs
from the spec's 2^((note−rootNote)/12) × suppliedRate/engineRate whenever
the supplied rate is not 44100: loading a 48000 Hz sample on a 48000 Hz
engine and triggering the root note yields 44100/48000, not 1. -/
theorem loadSample_discards_supplied_sample_rate :
    (({ config := {} } : MultiSamplerInstrument).loadSampleFromBuffer 0 [[1, 0, -1]]
        48000 { name := "kick" }).1 = true ∧
    ∃ sound,
      (({ config := {} } : MultiSamplerInstrument).loadSampleFromBuffer 0 [[1, 0, -1]]
          48000 { name := "kick" }).2.sounds = [sound] ∧
      sound.rootNote = 60 ∧
      sound.sourceSampleRate = 44100 ∧
      startNotePitchRatio sound 60 0 48000 = (44100 : ℝ) / 48000 ∧
      specPitchRatio 60 60 48000 48000 = 1 ∧
      startNotePitchRatio sound 60 0 48000 ≠ specPitchRatio 60 60 48000 48000 := by
  refine ⟨rfl, ⟨"kick", [[1, 0, -1]], 60, 0, 127, 3, 1, 44100⟩, rfl, rfl, rfl, ?_, ?_, ?_⟩
  · show (2 : ℝ) ^ (((60 - 60 : ℤ) : ℝ) / 12) * (2 : ℝ) ^ (((0 : ℚ) : ℝ) / 12) *
      (((44100 : ℚ) : ℝ) / ((48000 : ℚ) : ℝ)) = (44100 : ℝ) / 48000
    norm_num
  · show (2 : ℝ) ^ (((60 - 60 : ℤ) : ℝ) / 12) *
      (((48000 : ℚ) : ℝ) / ((48000 : ℚ) : ℝ)) = 1
    norm_num
  · intro hcontra
    rw [show startNotePitchRatio ⟨"kick", [[1, 0, -1]], 60, 0, 127, 3, 1, 44100⟩ 60 0 48000
          = (2 : ℝ) ^ (((60 - 60 : ℤ) : ℝ) / 12) * (2 : ℝ) ^ (((0 : ℚ) : ℝ) / 12) *
            (((44100 : ℚ) : ℝ) / ((48000 : ℚ) : ℝ)) from rfl,
        show specPitchRatio 60 60 48000 48000
          = (2 : ℝ) ^ (((60 - 60 : ℤ) : ℝ) / 12) *
            (((48000 : ℚ) : ℝ) / ((48000 : ℚ) : ℝ)) from rfl] at hcontra
    norm_num at hcontra

-- ══════════════════════════════════════════════════════════════════════
-- C3: the sample voice never reads the PCM buffer out of bounds
-- ══════════════════════════════════════════════════════════════════════

theorem renderLoop_reads_in_range (data : List ℚ) (rdata : Option (List ℚ)) :
    ∀ (n i : ℕ) (v : MultiSamplerVoiceState) (outL : List ℚ) (outR : Option (List ℚ))
      (reads : List ℤ),
      0 ≤ v.sourceSamplePosition → 0 ≤ v.pitchRatio →
      (∀ p ∈ reads, 0 ≤ p ∧ p + 1 ≤ v.soundLength - 1) →
      ∀ p ∈ (renderLoop data rdata n i v outL outR reads).reads,
        0 ≤ p ∧ p + 1 ≤ v.soundLength - 1 := by
  intro n
  induction n with
  | zero =>
    intro i v outL outR reads hpos hpr hreads
    simpa [renderLoop] using hreads
  | succ n ih =>
    intro i v outL outR reads hpos hpr hreads
    simp only [renderLoop]
    by_cases h1 : ¬ (v.adsr.getNextSample).2.isActive
    · rw [if_pos h1]
      simpa using hreads
    · rw [if_neg h1]
      by_cases h2 : v.soundLength - 1 ≤ cppTrunc v.sourceSamplePosition
      · rw [if_pos h2]
        simpa using hreads
      · rw [if_neg h2]
        refine ih (i + 1) _ _ _ _ (add_nonneg hpos hpr) hpr ?_
        intro p hp
        rcases List.mem_append.mp hp with hp | hp
        · exact hreads p hp
        · simp only [List.mem_singleton] at hp
          subst hp
          refine ⟨cppTrunc_nonneg hpos, ?_⟩
          show cppTrunc v.sourceSamplePosition + 1 ≤ v.soundLength - 1
          omega

/-- C3: during any renderNextBlock call of the sample voice, every PCM
read happens at a base index p with 0 ≤ p and p + 1 ≤ soundLength − 1 (so
the accessed pair (p, p+1) stays inside a buffer of that length: the voice
is marked finished and stops before the position can reach length − 1);
and when no sound data is cached the voice renders nothing: the output is
untouched and no read occurs. -/
theorem renderNextBlock_bounds_safe (v : MultiSamplerVoiceState) (outL : List ℚ)
    (outR : Option (List ℚ)) (numSamples : ℕ)
    (hpos : 0 ≤ v.sourceSamplePosition) (hpr : 0 ≤ v.pitchRatio) :
    (∀ p ∈ (MultiSamplerVoice.renderNextBlock v outL outR numSamples).reads,
        0 ≤ p ∧ p + 1 ≤ v.soundLength - 1) ∧
    (∀ data, v.leftChannelData = some data → (data.length : ℤ) = v.soundLength →
      ∀ p ∈ (MultiSamplerVoice.renderNextBlock v outL outR numSamples).reads,
        0 ≤ p ∧ p + 1 < (data.length : ℤ)) ∧
    (v.leftChannelData = none →
      (MultiSamplerVoice.renderNextBlock v outL outR numSamples).outL = outL ∧
      (MultiSamplerVoice.renderNextBlock v outL outR numSamples).outR = outR ∧
      (MultiSamplerVoice.renderNextBlock v outL outR numSamples).reads = []) := by
  have hmain : ∀ p ∈ (MultiSamplerVoice.renderNextBlock v outL outR numSamples).reads,
      0 ≤ p ∧ p + 1 ≤ v.soundLength - 1 := by
    unfold MultiSamplerVoice.renderNextBlock
    cases hact : v.active with
    | false =>
      intro p hp
      simp at hp
    | true =>
      cases hdat : v.leftChannelData with
      | none =>
        intro p hp
        simp at hp
      | some data =>
        by_cases hsr : 0 < v.sampleRate
        · rw [if_pos hsr]
          exact renderLoop_reads_in_range data v.rightChannelData numSamples 0 _ outL outR []
            hpos hpr (by intro p hp; simp at hp)
        · rw [if_neg hsr]
          exact renderLoop_reads_in_range data v.rightChannelData numSamples 0 _ outL outR []
            hpos hpr (by intro p hp; simp at hp)
  refine ⟨hmain, ?_, ?_⟩
  · intro data hdat hlen p hp
    obtain ⟨hp0, hp1⟩ := hmain p hp
    omega
  · intro hnone
    unfold MultiSamplerVoice.renderNextBlock
    cases hact : v.active with
    | false => exact ⟨rfl, rfl, rfl⟩
    | true =>
      rw [hnone]
      exact ⟨rfl, rfl, rfl⟩

/-- Witness for C3: an active sustain-phase voice over a 5-sample buffer
with pitch ratio 3/2 rendering 3 samples. -/
theorem renderNextBlock_bounds_safe_witness :
    (0 ≤ (0 : ℚ)) ∧ (0 ≤ (3/2 : ℚ)) ∧
    ∀ p ∈ (MultiSamplerVoice.renderNextBlock
        ⟨true, ⟨AdsrPhase.sustain, 1, ⟨1/100, 1/10, 4/5, 3/10⟩, 44100⟩, 0, 3/2, 1,
         some [1, 2, 3, 4, 5], none, 5, 44100⟩ [0, 0, 0] none 3).reads,
      0 ≤ p ∧ p + 1 ≤ 5 - 1 :=
  ⟨le_refl 0, by norm_num,
   (renderNextBlock_bounds_safe
      ⟨true, ⟨AdsrPhase.sustain, 1, ⟨1/100, 1/10, 4/5, 3/10⟩, 44100⟩, 0, 3/2, 1,
       some [1, 2, 3, 4, 5], none, 5, 44100⟩ [0, 0, 0] none 3 (le_refl 0) (by norm_num)).1⟩
